import Mathlib

/-!
Verification development for the Beasiswa ITB scholarship status checker
(`backend/server.py`, `transform_csv.py`, `fix_csv.py`).

The backend is a stateless request layer over a MongoDB collection.  We embed
it shallowly: the `applications` collection is a list of `App` records in
insertion order (Mongo's natural order for this workload), the `admins`
collection a list of `Admin` records, timestamps are naturals, and the Mongo
primitives used by the code (`find_one`, `insert_one`, `update_one`,
`delete_one`) are list operations on the first match.  External collaborators
(uuid generation, the SHA-256 digest, the JWT library) are modelled as
parameters or small transparent models, since only their interface behaviour
matters to the routes under verification.
-/

namespace Bius

/-- A scholarship application record (`ScholarshipApplication` in
`backend/server.py`).  `ipk` (grade point) is a Python float in the source;
we model it as `Rat`, which is faithful for the decimal literals the CSV
paths produce.  `penghasilan_keluarga` (household income) is an `int`.
Datetimes are modelled as natural-number instants. -/
structure App where
  id : String
  nim : String
  email : String
  nama_lengkap : String
  nomor_telepon : String
  alamat : String
  ipk : Rat
  penghasilan_keluarga : Int
  essay : String
  dokumen_pendukung : Option String
  rekomendasi : Option String
  status : String
  tahap : String
  catatan : Option String
  tanggal_daftar : Nat
  tanggal_update : Nat
deriving DecidableEq, Repr

/-- The `applications` collection, in insertion order. -/
abbrev DB := List App

/-- Mongo `update_one(filter, {"$set": ...})`: rewrite the first record
matching `pred` with `f`, leave the rest unchanged. -/
def updateOne {α : Type} (pred : α → Bool) (f : α → α) : List α → List α
  | [] => []
  | a :: rest => if pred a then f a :: rest else a :: updateOne pred f rest

/-- An administrator record (`Admin` in `backend/server.py`). -/
structure Admin where
  id : String
  username : String
  hashed_password : String
  created_at : Nat
deriving DecidableEq, Repr

/-! ### Numeric cell parsing

`parse_csv_row` calls Python's `float()` and `int()` on stripped CSV cells.
We model the decimal fragment these builtins accept on such cells: an
optional sign followed by digits (for `int`), and an optional sign followed
by an integer part and/or a decimal point and fractional part (for `float`;
the exponent and infinity forms never occur in this data and are omitted
from the model).  The claims under verification depend only on which cells
parse, not on exotic float syntax. -/

/-- Numeric value of a digit string (most significant first). -/
def digitsToNat (l : List Char) : Nat :=
  l.foldl (fun a c => a * 10 + (c.toNat - 48)) 0

/-- Model of Python `int(s)` on a stripped cell: optional sign, then a
non-empty run of digits; anything else raises `ValueError` (here: `none`). -/
def parsePyInt (s : String) : Option Int :=
  let core : List Char → Option Nat := fun cs =>
    if cs ≠ [] ∧ cs.all (·.isDigit) then some (digitsToNat cs) else none
  match s.toList with
  | '+' :: rest => (core rest).map (fun n => (n : Int))
  | '-' :: rest => (core rest).map (fun n => -(n : Int))
  | cs => (core cs).map (fun n => (n : Int))

/-- Model of Python `float(s)` on a stripped cell: optional sign, then
`digits`, `digits.digits`, `digits.` or `.digits`. -/
def parsePyFloat (s : String) : Option Rat :=
  let core : List Char → Option Rat := fun cs =>
    let intPart := cs.takeWhile (·.isDigit)
    let rest := cs.dropWhile (·.isDigit)
    match rest with
    | [] => if intPart ≠ [] then some (digitsToNat intPart : Rat) else none
    | '.' :: frac =>
      if frac.all (·.isDigit) ∧ (intPart ≠ [] ∨ frac ≠ []) then
        some ((digitsToNat intPart : Rat) + (digitsToNat frac : Rat) / ((10 : Rat) ^ frac.length))
      else none
    | _ => none
  match s.toList with
  | '+' :: rest => core rest
  | '-' :: rest => (core rest).map (fun q => -q)
  | cs => core cs

/-! ### CSV rows -/

/-- A data row as produced by `csv.DictReader`: a finite map from the file's
column names to cell strings.  A column absent from the file is absent from
the map, so `row.get(key, default)` returns the default. -/
abbrev Row := List (String × String)

/-- Python `row.get(key, default)`. -/
def rowGet (row : Row) (key default : String) : String :=
  (row.lookup key).getD default

/-- Python `s.strip()`: drop whitespace from both ends. -/
def pyStrip (s : String) : String :=
  String.mk (((s.data.dropWhile Char.isWhitespace).reverse.dropWhile
    Char.isWhitespace).reverse)

/-- The dictionary `parse_csv_row` builds (`app_data` in the import route):
every application field except the generated id and the timestamps. -/
structure ParsedRow where
  nim : String
  email : String
  nama_lengkap : String
  nomor_telepon : String
  alamat : String
  ipk : Rat
  penghasilan_keluarga : Int
  essay : String
  dokumen_pendukung : Option String
  rekomendasi : Option String
  status : String
  tahap : String
  catatan : Option String
deriving DecidableEq, Repr

/-- Python `s.strip() or None`. -/
def stripOrNone (s : String) : Option String :=
  if pyStrip s = "" then none else some (pyStrip s)

/-- `parse_csv_row` (`backend/server.py` 178–210): numeric cells that are
empty or the `-` placeholder get defaults 0.0 / 0, other numeric cells must
parse or the row raises `ValueError`; every string field is stripped; empty
optional fields become `None`; `status` / `tahap` default when the column is
absent and are otherwise taken verbatim. -/
def parse_csv_row (row : Row) : Except String ParsedRow :=
  let ipkCell := pyStrip (rowGet row "ipk" "")
  let ipkParsed : Except String Rat :=
    if ipkCell = "" ∨ ipkCell = "-" then .ok 0
    else match parsePyFloat ipkCell with
      | some q => .ok q
      | none => .error ("Invalid data in row: could not convert string to float: " ++ ipkCell)
  match ipkParsed with
  | .error e => .error e
  | .ok ipkValue =>
    let pkCell := pyStrip (rowGet row "penghasilan_keluarga" "")
    let pkParsed : Except String Int :=
      if pkCell = "" ∨ pkCell = "-" then .ok 0
      else match parsePyInt pkCell with
        | some n => .ok n
        | none => .error ("Invalid data in row: invalid literal for int: " ++ pkCell)
    match pkParsed with
    | .error e => .error e
    | .ok pkValue =>
      .ok {
        nim := pyStrip (rowGet row "nim" "")
        email := pyStrip (rowGet row "email" "")
        nama_lengkap := pyStrip (rowGet row "nama_lengkap" "")
        nomor_telepon := pyStrip (rowGet row "nomor_telepon" "")
        alamat := pyStrip (rowGet row "alamat" "")
        ipk := ipkValue
        penghasilan_keluarga := pkValue
        essay := pyStrip (rowGet row "essay" "")
        dokumen_pendukung := stripOrNone (rowGet row "dokumen_pendukung" "")
        rekomendasi := stripOrNone (rowGet row "rekomendasi" "")
        status := pyStrip (rowGet row "status" "Dalam Review")
        tahap := pyStrip (rowGet row "tahap" "Administrasi")
        catatan := stripOrNone (rowGet row "catatan" "") }

/-! ### HTTP-level errors -/

/-- The `HTTPException`s raised by the routes under verification, by status
code and detail string. -/
inductive ApiError where
  | badRequest (detail : String)
  | notFound (detail : String)
  | unauthorized (detail : String)
deriving DecidableEq, Repr

/-! ### Application lifecycle routes -/

/-- `ScholarshipApplicationCreate`: the request body of the create route.
The source gives `tahap` the default `"Administrasi"` at the Pydantic layer;
callers of the model supply the resolved value. -/
structure AppCreate where
  nim : String
  email : String
  nama_lengkap : String
  nomor_telepon : String
  alamat : String
  ipk : Rat
  penghasilan_keluarga : Int
  essay : String
  dokumen_pendukung : Option String
  rekomendasi : Option String
  tahap : String
deriving DecidableEq, Repr

/-- `create_application` (`backend/server.py` 312–330): reject with HTTP 400
if some record already carries the requested `nim`; otherwise build a
`ScholarshipApplication` with a fresh id, default status, and both
timestamps set to now, and append it to the collection.  Returns the created
record and the new collection state. -/
def create_application (input : AppCreate) (newId : String) (now : Nat) (db : DB) :
    Except ApiError (App × DB) :=
  match db.find? (fun a => a.nim == input.nim) with
  | some _ => .error (.badRequest "NIM sudah terdaftar")
  | none =>
    let app : App := {
      id := newId
      nim := input.nim
      email := input.email
      nama_lengkap := input.nama_lengkap
      nomor_telepon := input.nomor_telepon
      alamat := input.alamat
      ipk := input.ipk
      penghasilan_keluarga := input.penghasilan_keluarga
      essay := input.essay
      dokumen_pendukung := input.dokumen_pendukung
      rekomendasi := input.rekomendasi
      status := "Dalam Review"
      tahap := input.tahap
      catatan := none
      tanggal_daftar := now
      tanggal_update := now }
    .ok (app, db ++ [app])

/-- `ScholarshipApplicationUpdate`: the partial-update request body; a `none`
field was left unset by the caller. -/
structure AppUpdate where
  nama_lengkap : Option String := none
  nomor_telepon : Option String := none
  alamat : Option String := none
  ipk : Option Rat := none
  penghasilan_keluarga : Option Int := none
  essay : Option String := none
  dokumen_pendukung : Option String := none
  rekomendasi : Option String := none
  status : Option String := none
  tahap : Option String := none
  catatan : Option String := none
deriving DecidableEq, Repr

/-- True iff `{k: v for k, v in updates.dict().items() if v is not None}`
is non-empty. -/
def AppUpdate.hasAny (u : AppUpdate) : Bool :=
  u.nama_lengkap.isSome || u.nomor_telepon.isSome || u.alamat.isSome ||
  u.ipk.isSome || u.penghasilan_keluarga.isSome || u.essay.isSome ||
  u.dokumen_pendukung.isSome || u.rekomendasi.isSome || u.status.isSome ||
  u.tahap.isSome || u.catatan.isSome

/-- Apply `$set` with the non-`None` update fields plus the refreshed
`tanggal_update` to one record. -/
def AppUpdate.apply (u : AppUpdate) (now : Nat) (a : App) : App :=
  { a with
    nama_lengkap := u.nama_lengkap.getD a.nama_lengkap
    nomor_telepon := u.nomor_telepon.getD a.nomor_telepon
    alamat := u.alamat.getD a.alamat
    ipk := u.ipk.getD a.ipk
    penghasilan_keluarga := u.penghasilan_keluarga.getD a.penghasilan_keluarga
    essay := u.essay.getD a.essay
    dokumen_pendukung := u.dokumen_pendukung.orElse (fun _ => a.dokumen_pendukung)
    rekomendasi := u.rekomendasi.orElse (fun _ => a.rekomendasi)
    status := u.status.getD a.status
    tahap := u.tahap.getD a.tahap
    catatan := u.catatan.orElse (fun _ => a.catatan)
    tanggal_update := now }

/-- `update_application` (`backend/server.py` 332–357): 404 if no record has
the id; otherwise `$set` only the fields present in the payload, refreshing
`tanggal_update` — but skip the write entirely when every field is unset —
then re-read and return the record. -/
def update_application (app_id : String) (u : AppUpdate) (now : Nat) (db : DB) :
    Except ApiError (App × DB) :=
  match db.find? (fun a => a.id == app_id) with
  | none => .error (.notFound "Aplikasi tidak ditemukan")
  | some _ =>
    let db' := if u.hasAny then updateOne (fun a => a.id == app_id) (u.apply now) db else db
    match db'.find? (fun a => a.id == app_id) with
    | some updated => .ok (updated, db')
    | none => .error (.notFound "Aplikasi tidak ditemukan")

/-- `delete_application` (`backend/server.py` 359–370): remove the first
record with the id; 404 when `deleted_count == 0`. -/
def delete_application (app_id : String) (db : DB) : Except ApiError DB :=
  if db.any (fun a => a.id == app_id) then .ok (db.eraseP (fun a => a.id == app_id))
  else .error (.notFound "Aplikasi tidak ditemukan")

/-! ### Public status lookup -/

/-- `StatusCheckRequest`. -/
structure StatusCheckRequest where
  nim : String
  email : String
deriving DecidableEq, Repr

/-- `StatusResponse` (`backend/server.py` 93–101): the public-safe
projection.  The model has no field for essay, income, phone or address. -/
structure StatusResponse where
  found : Bool
  nim : Option String := none
  nama_lengkap : Option String := none
  status : Option String := none
  tahap : Option String := none
  catatan : Option String := none
  tanggal_daftar : Option Nat := none
  tanggal_update : Option Nat := none
deriving DecidableEq, Repr

/-- `check_scholarship_status` (`backend/server.py` 218–244): look up by
exact `nim` and `email`; a miss is the normal value `found=False`, a hit is
the projected record. -/
def check_scholarship_status (req : StatusCheckRequest) (db : DB) : StatusResponse :=
  match db.find? (fun a => a.nim == req.nim && a.email == req.email) with
  | none => { found := false }
  | some a =>
    { found := true
      nim := some a.nim
      nama_lengkap := some a.nama_lengkap
      status := some a.status
      tahap := some a.tahap
      catatan := a.catatan
      tanggal_daftar := some a.tanggal_daftar
      tanggal_update := some a.tanggal_update }

/-! ### Paginated admin listing -/

/-- The `pagination` dictionary returned by `get_all_applications`. -/
structure Pagination where
  current_page : Nat
  total_pages : Nat
  total_count : Nat
  limit : Nat
  has_next : Bool
  has_prev : Bool
deriving DecidableEq, Repr

/-- The route's response: the page slice plus pagination metadata. -/
structure PageResult where
  applications : List App
  pagination : Pagination
deriving DecidableEq, Repr

/-- `get_all_applications` (`backend/server.py` 264–297): `skip = (page-1) *
limit`, slice `[skip, skip+limit)`, `total_pages = (count + limit - 1) //
limit`, `has_next = page < total_pages`, `has_prev = page > 1`. -/
def get_all_applications (page limit : Nat) (db : DB) : PageResult :=
  let skip := (page - 1) * limit
  let total_count := db.length
  let total_pages := (total_count + limit - 1) / limit
  { applications := (db.drop skip).take limit
    pagination := {
      current_page := page
      total_pages := total_pages
      total_count := total_count
      limit := limit
      has_next := decide (page < total_pages)
      has_prev := decide (page > 1) } }

/-! ### CSV import route -/

/-- The error strings accumulated by the import loop: `f"Baris {row_num}: {reason}"`. -/
def errMsg (rowNum : Nat) (reason : String) : String :=
  "Baris " ++ toString rowNum ++ ": " ++ reason

/-- Build the record inserted for a CSV row with no existing match:
`ScholarshipApplication(**app_data)` with a fresh id, default timestamps. -/
def App.ofParsed (p : ParsedRow) (newId : String) (now : Nat) : App :=
  { id := newId
    nim := p.nim
    email := p.email
    nama_lengkap := p.nama_lengkap
    nomor_telepon := p.nomor_telepon
    alamat := p.alamat
    ipk := p.ipk
    penghasilan_keluarga := p.penghasilan_keluarga
    essay := p.essay
    dokumen_pendukung := p.dokumen_pendukung
    rekomendasi := p.rekomendasi
    status := p.status
    tahap := p.tahap
    catatan := p.catatan
    tanggal_daftar := now
    tanggal_update := now }

/-- `$set` of the full `app_data` dictionary plus `tanggal_update` on an
existing record (the update arm of the import loop): every field of
`app_data` overwrites the stored one; only `id` and `tanggal_daftar` are
absent from the dictionary and survive. -/
def App.setParsed (p : ParsedRow) (now : Nat) (a : App) : App :=
  { a with
    nim := p.nim
    email := p.email
    nama_lengkap := p.nama_lengkap
    nomor_telepon := p.nomor_telepon
    alamat := p.alamat
    ipk := p.ipk
    penghasilan_keluarga := p.penghasilan_keluarga
    essay := p.essay
    dokumen_pendukung := p.dokumen_pendukung
    rekomendasi := p.rekomendasi
    status := p.status
    tahap := p.tahap
    catatan := p.catatan
    tanggal_update := now }

/-- The accumulator of the import loop. -/
structure ImportState where
  db : DB
  imported : Nat
  updated : Nat
  errors : List String
deriving DecidableEq, Repr

/-- One iteration of the import loop (`backend/server.py` 390–424) on the
row numbered `rowNum`: parse, validate the three identity fields, then
either `$set`-update the first record with the same `(nim, email)` pair or
insert a fresh record with id `newId`.  Both failure arms only append a
diagnostic. -/
def importRow (now : Nat) (newId : String) (rowNum : Nat) (row : Row)
    (st : ImportState) : ImportState :=
  match parse_csv_row row with
  | .error e => { st with errors := st.errors ++ [errMsg rowNum e] }
  | .ok p =>
    if p.nim = "" ∨ p.email = "" ∨ p.nama_lengkap = "" then
      { st with errors :=
          st.errors ++ [errMsg rowNum "NIM, email, dan nama_lengkap harus diisi"] }
    else
      match st.db.find? (fun a => a.nim == p.nim && a.email == p.email) with
      | some _ =>
        { st with
          db := updateOne (fun a => a.nim == p.nim && a.email == p.email)
                  (App.setParsed p now) st.db
          updated := st.updated + 1 }
      | none =>
        { st with db := st.db ++ [App.ofParsed p newId now], imported := st.imported + 1 }

/-- The import loop over the remaining rows; `rowNum` is the file row number
of the head (the header is row 1, so the loop starts at 2).  `ids` supplies
the uuid for the record a given file row would create. -/
def importLoop (now : Nat) (ids : Nat → String) : Nat → List Row → ImportState → ImportState
  | _, [], st => st
  | rowNum, row :: rest, st =>
    importLoop now ids (rowNum + 1) rest (importRow now (ids rowNum) rowNum row st)

/-- `ImportResult` (`backend/server.py` 117–121).  In the source
`imported_count` is set to `imported + updated` (the route's
`total_processed`). -/
structure ImportResult where
  success : Bool
  imported_count : Nat
  errors : List String
  message : String
deriving DecidableEq, Repr

/-- `import_applications_csv` (`backend/server.py` 373–438), after the `.csv`
extension check and decode: run the loop from file row 2 and assemble the
report. -/
def import_applications_csv (now : Nat) (ids : Nat → String) (rows : List Row)
    (db : DB) : ImportResult × DB :=
  let st := importLoop now ids 2 rows { db := db, imported := 0, updated := 0, errors := [] }
  let total := st.imported + st.updated
  ({ success := decide (total > 0)
     imported_count := total
     errors := st.errors
     message := "Berhasil memproses " ++ toString total ++ " aplikasi (" ++
       toString st.imported ++ " baru, " ++ toString st.updated ++ " diperbarui). " ++
       toString st.errors.length ++ " error ditemukan." },
   st.db)

/-! ### Token verification and admin authorization

The JWT library is an external collaborator; we model the part of its
contract `get_current_admin` relies on.  A presented bearer token is either
malformed (any of the `PyJWTError` decode failures other than expiry), or a
payload signed under some key; `jwt.decode` succeeds iff the signing key
matches the verification key and the token is not expired.  PyJWT rejects
exactly when `now >= exp` (zero leeway). -/

/-- A decoded JWT payload: the optional `sub` claim and the `exp` instant. -/
structure JwtPayload where
  sub : Option String
  exp : Nat
deriving DecidableEq, Repr

/-- A presented bearer token. -/
inductive Token where
  | malformed
  | signed (key : String) (payload : JwtPayload)
deriving DecidableEq, Repr

/-- Model of `jwt.decode(token, key, algorithms=[ALGORITHM])`: `none` stands
for a raised `PyJWTError` (bad signature, malformed payload, or
`ExpiredSignatureError` when `now ≥ exp`). -/
def jwtDecode (t : Token) (key : String) (now : Nat) : Option JwtPayload :=
  match t with
  | .malformed => none
  | .signed k p => if k = key ∧ now < p.exp then some p else none

/-- `create_access_token` (`backend/server.py` 149–157): copy the claims and
set `exp = now + delta`, defaulting to `ACCESS_TOKEN_EXPIRE_MINUTES`
(1440 minutes, here in seconds) when no delta is given; sign with the
process key. -/
def create_access_token (sub : String) (key : String) (now : Nat)
    (delta : Option Nat) : Token :=
  .signed key { sub := some sub, exp := now + delta.getD (1440 * 60) }

/-- `get_current_admin` (`backend/server.py` 159–176): decode the credential
(any decode failure → 401), reject a payload without `sub` (401), then the
username must still resolve to a stored administrator (401), which is
returned. -/
def get_current_admin (t : Token) (key : String) (now : Nat)
    (admins : List Admin) : Except ApiError Admin :=
  match jwtDecode t key now with
  | none => .error (.unauthorized "Could not validate credentials")
  | some payload =>
    match payload.sub with
    | none => .error (.unauthorized "Could not validate credentials")
    | some username =>
      match admins.find? (fun a => a.username == username) with
      | none => .error (.unauthorized "Could not validate credentials")
      | some admin => .ok admin

/-! ### Startup admin seeding -/

/-- `startup_event` (`backend/server.py` 459–485): seed the configured admin.
`hashfn` abstracts `get_password_hash` (the SHA-256 digest of the password);
`newId` the generated uuid.  No matching record: insert one built from the
configured credentials.  Matching record with a stale hash: overwrite just
the hash.  Matching record with the current hash: leave the collection
untouched. -/
def startup_event (hashfn : String → String) (username password : String)
    (newId : String) (now : Nat) (admins : List Admin) : List Admin :=
  match admins.find? (fun a => a.username == username) with
  | none =>
    admins ++ [{ id := newId, username := username,
                 hashed_password := hashfn password, created_at := now }]
  | some existing =>
    if existing.hashed_password ≠ hashfn password then
      updateOne (fun a => a.username == username)
        (fun a => { a with hashed_password := hashfn password }) admins
    else admins

/-! ### The standalone transform tool -/

/-- `status_mapping` in `transform_csv.py` 87–94: a dictionary lookup with
default `'Dalam Review'`; the keys map to themselves except `''`. -/
def transformStatus (s : String) : String :=
  if s = "Diterima" then "Diterima"
  else if s = "Ditolak" then "Ditolak"
  else if s = "Dalam Review" then "Dalam Review"
  else "Dalam Review"

/-- `tahap_mapping` in `transform_csv.py` 96–103, default `'Administrasi'`. -/
def transformTahap (s : String) : String :=
  if s = "Administrasi" then "Administrasi"
  else if s = "Wawancara" then "Wawancara"
  else if s = "Final" then "Final"
  else "Administrasi"

/-! ### Invariants and helper lemmas -/

/-- The natural business key of the import path. -/
def pairKey (a : App) : String × String := (a.nim, a.email)

/-- No two application records share a student-ID. -/
def nimUnique (db : DB) : Prop := (db.map App.nim).Nodup

/-- No two application records share a (student-ID, email) pair. -/
def pairUnique (db : DB) : Prop := (db.map pairKey).Nodup

instance (db : DB) : Decidable (nimUnique db) := by unfold nimUnique; infer_instance

instance (db : DB) : Decidable (pairUnique db) := by unfold pairUnique; infer_instance

theorem updateOne_map {α β : Type} (g : α → β) (pred : α → Bool) (f : α → α)
    (h : ∀ a, pred a = true → g (f a) = g a) :
    ∀ l : List α, (updateOne pred f l).map g = l.map g := by
  intro l
  induction l with
  | nil => rfl
  | cons a rest ih =>
    by_cases hp : pred a = true
    · simp [updateOne, hp, h a hp]
    · simp [updateOne, hp, ih]

theorem updateOne_length {α : Type} (pred : α → Bool) (f : α → α) :
    ∀ l : List α, (updateOne pred f l).length = l.length := by
  intro l
  induction l with
  | nil => rfl
  | cons a rest ih =>
    by_cases hp : pred a = true
    · simp [updateOne, hp]
    · simp [updateOne, hp, ih]

theorem updateOne_find? {α : Type} (pred : α → Bool) (f : α → α) (l : List α) (a : α)
    (hfind : l.find? pred = some a) (hf : pred (f a) = true) :
    (updateOne pred f l).find? pred = some (f a) := by
  induction l with
  | nil => simp at hfind
  | cons b rest ih =>
    by_cases hp : pred b = true
    · rw [List.find?_cons_of_pos _ hp] at hfind
      cases hfind
      simp [updateOne, hp, List.find?_cons_of_pos _ hf]
    · rw [List.find?_cons_of_neg _ (by simpa using hp)] at hfind
      have hu : updateOne pred f (b :: rest) = b :: updateOne pred f rest := by
        simp [updateOne, hp]
      rw [hu, List.find?_cons_of_neg _ (by simpa using hp)]
      exact ih hfind

theorem importRow_errors_extend (now : Nat) (newId : String) (rowNum : Nat)
    (row : Row) (st : ImportState) :
    ∃ t, (importRow now newId rowNum row st).errors = st.errors ++ t := by
  unfold importRow
  cases hp : parse_csv_row row with
  | error e => exact ⟨[errMsg rowNum e], rfl⟩
  | ok p =>
    by_cases hreq : p.nim = "" ∨ p.email = "" ∨ p.nama_lengkap = ""
    · simp only [hreq, if_true]
      exact ⟨[errMsg rowNum "NIM, email, dan nama_lengkap harus diisi"], rfl⟩
    · simp only [hreq, if_false]
      cases st.db.find? (fun a => a.nim == p.nim && a.email == p.email) with
      | none => exact ⟨[], by simp⟩
      | some _ => exact ⟨[], by simp⟩

theorem importLoop_errors_extend (now : Nat) (ids : Nat → String) :
    ∀ (rows : List Row) (rowNum : Nat) (st : ImportState),
    ∃ t, (importLoop now ids rowNum rows st).errors = st.errors ++ t := by
  intro rows
  induction rows with
  | nil => exact fun rowNum st => ⟨[], by simp [importLoop]⟩
  | cons row rest ih =>
    intro rowNum st
    obtain ⟨t₁, h₁⟩ := importRow_errors_extend now (ids rowNum) rowNum row st
    obtain ⟨t₂, h₂⟩ := ih (rowNum + 1) (importRow now (ids rowNum) rowNum row st)
    exact ⟨t₁ ++ t₂, by simp [importLoop, h₂, h₁]⟩

theorem importLoop_append (now : Nat) (ids : Nat → String) :
    ∀ (xs ys : List Row) (rowNum : Nat) (st : ImportState),
    importLoop now ids rowNum (xs ++ ys) st =
      importLoop now ids (rowNum + xs.length) ys (importLoop now ids rowNum xs st) := by
  intro xs
  induction xs with
  | nil => intro ys rowNum st; simp [importLoop]
  | cons x rest ih =>
    intro ys rowNum st
    simp only [List.cons_append, importLoop, List.length_cons, List.append_eq]
    rw [ih]
    have harith : rowNum + 1 + rest.length = rowNum + (rest.length + 1) := by omega
    rw [harith]

theorem setParsed_pairKey (p : ParsedRow) (now : Nat) (a : App)
    (h : (a.nim == p.nim && a.email == p.email) = true) :
    pairKey (App.setParsed p now a) = pairKey a := by
  simp only [Bool.and_eq_true, beq_iff_eq] at h
  simp [pairKey, App.setParsed, h.1, h.2]

theorem importRow_pairUnique (now : Nat) (newId : String) (rowNum : Nat)
    (row : Row) (st : ImportState) (h : pairUnique st.db) :
    pairUnique (importRow now newId rowNum row st).db := by
  unfold importRow
  cases hp : parse_csv_row row with
  | error e => simpa using h
  | ok p =>
    by_cases hreq : p.nim = "" ∨ p.email = "" ∨ p.nama_lengkap = ""
    · simpa [hreq] using h
    · simp only [hreq, if_false]
      cases hfind : st.db.find? (fun a => a.nim == p.nim && a.email == p.email) with
      | some a =>
        simp only
        unfold pairUnique
        rw [updateOne_map pairKey _ _ (fun a ha => setParsed_pairKey p now a ha)]
        exact h
      | none =>
        simp only
        unfold pairUnique at h ⊢
        rw [List.map_append]
        rw [List.nodup_append]
        refine ⟨h, List.nodup_singleton _, ?_⟩
        intro x hx hx'
        simp only [List.map_cons, List.map_nil, List.mem_singleton] at hx'
        subst hx'
        obtain ⟨a, ha, hkey⟩ := List.mem_map.mp hx
        have hnot := List.find?_eq_none.mp hfind a ha
        simp only [Bool.and_eq_true, beq_iff_eq, not_and] at hnot
        simp only [pairKey, App.ofParsed, Prod.mk.injEq] at hkey
        exact hnot hkey.1 hkey.2

theorem importLoop_pairUnique (now : Nat) (ids : Nat → String) :
    ∀ (rows : List Row) (rowNum : Nat) (st : ImportState),
    pairUnique st.db → pairUnique (importLoop now ids rowNum rows st).db := by
  intro rows
  induction rows with
  | nil => intro rowNum st h; simpa [importLoop] using h
  | cons row rest ih =>
    intro rowNum st h
    exact ih (rowNum + 1) _ (importRow_pairUnique now (ids rowNum) rowNum row st h)

/-! ### Concrete data for witnesses and counterexamples -/

/-- uuid supply used in concrete runs. -/
def ids1 : Nat → String := fun n => "uuid-" ++ toString n

/-- A stored application used by the concrete scenarios. -/
def sampleApp : App :=
  { id := "id1", nim := "A1", email := "a@x.com", nama_lengkap := "Ann",
    nomor_telepon := "0812", alamat := "Jalan 1", ipk := 3,
    penghasilan_keluarga := 5000000, essay := "esai",
    dokumen_pendukung := none, rekomendasi := none,
    status := "Dalam Review", tahap := "Administrasi", catatan := some "oke",
    tanggal_daftar := 1, tanggal_update := 1 }

/-- A create request reusing `sampleApp`'s student-ID. -/
def sampleCreate : AppCreate :=
  { nim := "A1", email := "c@x.com", nama_lengkap := "Cye",
    nomor_telepon := "0", alamat := "J", ipk := 2, penghasilan_keluarga := 1,
    essay := "e", dokumen_pendukung := none, rekomendasi := none,
    tahap := "Administrasi" }

/-- CSV row carrying `sampleApp`'s student-ID under a different email. -/
def rowNewEmail : Row := [("nim", "A1"), ("email", "b@x.com"), ("nama_lengkap", "Bob")]

/-- CSV row matching `sampleApp`'s (nim, email) from a file with no phone,
address, numeric, or note columns. -/
def rowNoPhone : Row := [("nim", "A1"), ("email", "a@x.com"), ("nama_lengkap", "Ann")]

/-- What `parse_csv_row` produces for `rowNoPhone`. -/
def parsedNoPhone : ParsedRow :=
  { nim := "A1", email := "a@x.com", nama_lengkap := "Ann", nomor_telepon := "",
    alamat := "", ipk := 0, penghasilan_keluarga := 0, essay := "",
    dokumen_pendukung := none, rekomendasi := none,
    status := "Dalam Review", tahap := "Administrasi", catatan := none }

/-- CSV row with out-of-vocabulary status and stage values. -/
def rowBanana : Row :=
  [("nim", "B2"), ("email", "b@x.com"), ("nama_lengkap", "Bob"),
   ("status", "Banana"), ("tahap", "Mango")]

/-- CSV row with placeholder numeric cells. -/
def rowDash : Row :=
  [("nim", "A1"), ("email", "a@x.com"), ("nama_lengkap", "Ann"),
   ("ipk", "-"), ("penghasilan_keluarga", "")]

/-- CSV row with an unparseable grade-point cell. -/
def rowBadIpk : Row :=
  [("nim", "A1"), ("email", "a@x.com"), ("nama_lengkap", "Ann"), ("ipk", "abc")]

/-- CSV row with a placeholder grade-point cell next to a parseable income
cell. -/
def rowDashIpk : Row :=
  [("nim", "A1"), ("email", "a@x.com"), ("nama_lengkap", "Ann"),
   ("ipk", "-"), ("penghasilan_keluarga", "5000000")]

/-- CSV row with a parseable grade-point cell and an unparseable income
cell. -/
def rowBadPk : Row :=
  [("nim", "A1"), ("email", "a@x.com"), ("nama_lengkap", "Ann"),
   ("ipk", "3.5"), ("penghasilan_keluarga", "xyz")]

/-- CSV row whose student-ID is empty after trimming. -/
def rowEmptyNim : Row := [("nim", "  "), ("email", "b@x.com"), ("nama_lengkap", "Bob")]

/-- What `parse_csv_row` produces for `rowEmptyNim`. -/
def parsedEmptyNim : ParsedRow :=
  { nim := "", email := "b@x.com", nama_lengkap := "Bob", nomor_telepon := "",
    alamat := "", ipk := 0, penghasilan_keluarga := 0, essay := "",
    dokumen_pendukung := none, rekomendasi := none,
    status := "Dalam Review", tahap := "Administrasi", catatan := none }

/-- An import-loop state holding only `sampleApp`. -/
def st0 : ImportState := { db := [sampleApp], imported := 0, updated := 0, errors := [] }

/-- A concrete stand-in for the SHA-256 digest. -/
def hashfn1 : String → String := fun s => s ++ "#"

/-- A stored administrator with a stale password hash. -/
def adminRec : Admin :=
  { id := "aid", username := "admin", hashed_password := "old", created_at := 0 }

/-! ### Claims -/

/-- Records that agree on everything except the four fields the status
endpoint must never expose (essay, household income, phone, address). -/
def publicAgree (a b : App) : Prop :=
  a.id = b.id ∧ a.nim = b.nim ∧ a.email = b.email ∧
  a.nama_lengkap = b.nama_lengkap ∧ a.ipk = b.ipk ∧
  a.dokumen_pendukung = b.dokumen_pendukung ∧ a.rekomendasi = b.rekomendasi ∧
  a.status = b.status ∧ a.tahap = b.tahap ∧ a.catatan = b.catatan ∧
  a.tanggal_daftar = b.tanggal_daftar ∧ a.tanggal_update = b.tanggal_update

/-- C3: `checkStatus` returns `found = false` (with every projected field
empty — a normal result, not an error) whenever no record matches both the
student-ID and the email exactly; and the response never depends on the
essay, income, phone or address of any stored record — collections that
agree on all other fields produce identical responses, so none of those
four fields can be exposed whether or not a match is found. -/
theorem claim3 (req : StatusCheckRequest) (db db₁ db₂ : DB) :
    ((∀ a ∈ db, ¬(a.nim = req.nim ∧ a.email = req.email)) →
      check_scholarship_status req db = { found := false }) ∧
    (List.Forall₂ publicAgree db₁ db₂ →
      check_scholarship_status req db₁ = check_scholarship_status req db₂) := by
  constructor
  · intro h
    unfold check_scholarship_status
    have hnone : db.find? (fun a => a.nim == req.nim && a.email == req.email) = none := by
      rw [List.find?_eq_none]
      intro a ha
      simp only [Bool.and_eq_true, beq_iff_eq, not_and]
      intro h1 h2
      exact h a ha ⟨h1, h2⟩
    rw [hnone]
  · intro hrel
    induction hrel with
    | nil => rfl
    | cons hab hrest ih =>
      rename_i a b l₁ l₂
      obtain ⟨hid, hnim, hemail, hname, hipk, hdok, hrek, hstat, htahap, hcat, htd, htu⟩ := hab
      unfold check_scholarship_status at ih ⊢
      have hpa : (a.nim == req.nim && a.email == req.email) =
          (b.nim == req.nim && b.email == req.email) := by rw [hnim, hemail]
      by_cases hc : (b.nim == req.nim && b.email == req.email) = true
      · have ha' : List.find? (fun x => x.nim == req.nim && x.email == req.email)
            (a :: l₁) = some a := List.find?_cons_of_pos _ (by rw [hpa]; exact hc)
        have hb' : List.find? (fun x => x.nim == req.nim && x.email == req.email)
            (b :: l₂) = some b := List.find?_cons_of_pos _ hc
        rw [ha', hb']
        simp [hnim, hname, hstat, htahap, hcat, htd, htu]
      · have ha' : List.find? (fun x => x.nim == req.nim && x.email == req.email)
            (a :: l₁) = List.find? (fun x => x.nim == req.nim && x.email == req.email) l₁ :=
          List.find?_cons_of_neg _ (by rw [hpa]; simpa using hc)
        have hb' : List.find? (fun x => x.nim == req.nim && x.email == req.email)
            (b :: l₂) = List.find? (fun x => x.nim == req.nim && x.email == req.email) l₂ :=
          List.find?_cons_of_neg _ (by simpa using hc)
        rw [ha', hb']
        exact ih

theorem claim3_witness :
    check_scholarship_status { nim := "ZZ", email := "a@x.com" } [sampleApp] =
      { found := false } :=
  (claim3 { nim := "ZZ", email := "a@x.com" } [sampleApp] [] []).1 (by decide)

/-- C8: admin authorization fails with HTTP 401 when the token is malformed,
signed under the wrong key, expired (`now ≥ exp`), or lacks a subject; a
validly signed, unexpired token is still rejected when its username does
not resolve to a stored administrator; otherwise it succeeds and yields
that administrator.  Tokens issued by `create_access_token` with TTL `T`
decode before `now + T` and are rejected from `now + T` on. -/
theorem claim8 (key : String) (now : Nat) (admins : List Admin) :
    (get_current_admin .malformed key now admins =
      .error (.unauthorized "Could not validate credentials")) ∧
    (∀ k p, k ≠ key → get_current_admin (.signed k p) key now admins =
      .error (.unauthorized "Could not validate credentials")) ∧
    (∀ p, p.exp ≤ now → get_current_admin (.signed key p) key now admins =
      .error (.unauthorized "Could not validate credentials")) ∧
    (∀ p, now < p.exp → p.sub = none →
      get_current_admin (.signed key p) key now admins =
        .error (.unauthorized "Could not validate credentials")) ∧
    (∀ p u, now < p.exp → p.sub = some u →
      admins.find? (fun a => a.username == u) = none →
      get_current_admin (.signed key p) key now admins =
        .error (.unauthorized "Could not validate credentials")) ∧
    (∀ p u admin, now < p.exp → p.sub = some u →
      admins.find? (fun a => a.username == u) = some admin →
      get_current_admin (.signed key p) key now admins = .ok admin) ∧
    (∀ u T issued tnow, tnow < issued + T →
      jwtDecode (create_access_token u key issued (some T)) key tnow =
        some { sub := some u, exp := issued + T }) ∧
    (∀ u T issued tnow, issued + T ≤ tnow →
      jwtDecode (create_access_token u key issued (some T)) key tnow = none) := by
  refine ⟨rfl, ?_, ?_, ?_, ?_, ?_, ?_, ?_⟩
  · intro k p hk
    simp [get_current_admin, jwtDecode, hk]
  · intro p hexp
    simp [get_current_admin, jwtDecode, Nat.not_lt.mpr hexp]
  · intro p hexp hsub
    simp [get_current_admin, jwtDecode, hexp, hsub]
  · intro p u hexp hsub hfind
    simp [get_current_admin, jwtDecode, hexp, hsub, hfind]
  · intro p u admin hexp hsub hfind
    simp [get_current_admin, jwtDecode, hexp, hsub, hfind]
  · intro u T issued tnow ht
    simp [create_access_token, jwtDecode, ht]
  · intro u T issued tnow ht
    simp [create_access_token, jwtDecode, Nat.not_lt.mpr ht]

theorem claim8_witness :
    get_current_admin (.signed "k" { sub := some "admin", exp := 10 }) "k" 3 [adminRec] =
      .ok adminRec :=
  (claim8 "k" 3 [adminRec]).2.2.2.2.2.1 { sub := some "admin", exp := 10 } "admin"
    adminRec (by decide) rfl (by decide)

/-- C9: updating an existing application with a payload in which every field
is unset succeeds, leaves the collection (hence the record, including
`tanggal_update`) completely unchanged, and returns the existing record. -/
theorem claim9 (app_id : String) (now : Nat) (db : DB) (a : App)
    (h : db.find? (fun x => x.id == app_id) = some a) :
    update_application app_id {} now db = .ok (a, db) := by
  unfold update_application
  rw [h]
  simp [AppUpdate.hasAny, h]

theorem claim9_witness :
    update_application "id1" {} 9 [sampleApp] = .ok (sampleApp, [sampleApp]) :=
  claim9 "id1" 9 [sampleApp] sampleApp (by decide)

/-- C10: at startup, a missing configured administrator is created from the
configured credentials; an existing one whose stored hash differs from the
hash of the configured password gets exactly that hash overwritten (same
number of records, the stored record now carrying the new hash); and an
existing one with a matching hash leaves the collection untouched. -/
theorem claim10 (hashfn : String → String) (u pw newId : String) (now : Nat)
    (admins : List Admin) :
    (admins.find? (fun a => a.username == u) = none →
      startup_event hashfn u pw newId now admins =
        admins ++ [{ id := newId, username := u, hashed_password := hashfn pw,
                     created_at := now }]) ∧
    (∀ a, admins.find? (fun x => x.username == u) = some a →
      a.hashed_password = hashfn pw →
      startup_event hashfn u pw newId now admins = admins) ∧
    (∀ a, admins.find? (fun x => x.username == u) = some a →
      a.hashed_password ≠ hashfn pw →
      startup_event hashfn u pw newId now admins =
        updateOne (fun x => x.username == u)
          (fun x => { x with hashed_password := hashfn pw }) admins ∧
      (startup_event hashfn u pw newId now admins).find? (fun x => x.username == u) =
        some { a with hashed_password := hashfn pw } ∧
      (startup_event hashfn u pw newId now admins).length = admins.length) := by
  refine ⟨?_, ?_, ?_⟩
  · intro hnone
    simp [startup_event, hnone]
  · intro a hfind heq
    simp [startup_event, hfind, heq]
  · intro a hfind hne
    have hmain : startup_event hashfn u pw newId now admins =
        updateOne (fun x => x.username == u)
          (fun x => { x with hashed_password := hashfn pw }) admins := by
      simp [startup_event, hfind, hne]
    refine ⟨hmain, ?_, ?_⟩
    · rw [hmain]
      exact updateOne_find? _ _ admins a hfind (by simpa using List.find?_some hfind)
    · rw [hmain, updateOne_length]

theorem claim10_witness :
    startup_event hashfn1 "admin" "admin123" "aid2" 9 [adminRec] =
      updateOne (fun x => x.username == "admin")
        (fun x => { x with hashed_password := hashfn1 "admin123" }) [adminRec] ∧
    (startup_event hashfn1 "admin" "admin123" "aid2" 9 [adminRec]).find?
        (fun x => x.username == "admin") =
      some { adminRec with hashed_password := hashfn1 "admin123" } ∧
    (startup_event hashfn1 "admin" "admin123" "aid2" 9 [adminRec]).length =
      ([adminRec] : List Admin).length :=
  (claim10 hashfn1 "admin" "admin123" "aid2" 9 [adminRec]).2.2 adminRec
    (by decide) (by decide)

theorem ceil_div_eq (N L : Nat) (hL : 0 < L) :
    (((N + L - 1) / L : Nat) : ℤ) = ⌈(N : ℚ) / (L : ℚ)⌉ := by
  have hq := Nat.div_add_mod (N + L - 1) L
  have hm : (N + L - 1) % L < L := Nat.mod_lt _ hL
  set q := (N + L - 1) / L with hqdef
  have h1 : N ≤ L * q := by omega
  have h2 : L * q < N + L := by omega
  have hLq : (0 : ℚ) < (L : ℚ) := by exact_mod_cast hL
  rw [eq_comm, Int.ceil_eq_iff]
  constructor
  · rw [lt_div_iff₀ hLq]
    have hc : (L : ℚ) * (q : ℚ) < (N : ℚ) + (L : ℚ) := by exact_mod_cast h2
    push_cast
    nlinarith [hc]
  · rw [div_le_iff₀ hLq]
    have hc : (N : ℚ) ≤ (L : ℚ) * (q : ℚ) := by exact_mod_cast h1
    push_cast
    nlinarith [hc]

theorem le_total_pages_mul (N L : Nat) (hL : 0 < L) : N ≤ ((N + L - 1) / L) * L := by
  have hq := Nat.div_add_mod (N + L - 1) L
  have hm : (N + L - 1) % L < L := Nat.mod_lt _ hL
  rw [Nat.mul_comm]
  omega

/-- C5: for N stored records, positive limit L and page p ≥ 1, the listing
reports `total_pages = ⌈N / L⌉`, `has_next` exactly when the current page is
below the last, `has_prev` exactly when it is above the first, and a page
beyond the last yields an empty slice rather than an error. -/
theorem claim5 (db : DB) (page limit : Nat) (hL : 0 < limit) (hp : 1 ≤ page) :
    (((get_all_applications page limit db).pagination.total_pages : ℤ) =
        ⌈(db.length : ℚ) / (limit : ℚ)⌉) ∧
    ((get_all_applications page limit db).pagination.has_next = true ↔
        page < (get_all_applications page limit db).pagination.total_pages) ∧
    ((get_all_applications page limit db).pagination.has_prev = true ↔ 1 < page) ∧
    ((get_all_applications page limit db).pagination.total_pages < page →
        (get_all_applications page limit db).applications = []) := by
  refine ⟨ceil_div_eq db.length limit hL, by simp [get_all_applications],
    by simp [get_all_applications], ?_⟩
  intro hbeyond
  unfold get_all_applications at hbeyond ⊢
  simp only at hbeyond ⊢
  have hlen : db.length ≤ (page - 1) * limit := by
    calc db.length ≤ ((db.length + limit - 1) / limit) * limit :=
          le_total_pages_mul db.length limit hL
    _ ≤ (page - 1) * limit := Nat.mul_le_mul_right _ (by omega)
  rw [List.drop_eq_nil_of_le hlen, List.take_nil]

theorem claim5_witness :
    (((get_all_applications 3 4 [sampleApp]).pagination.total_pages : ℤ) =
        ⌈((([sampleApp] : DB).length : ℚ)) / ((4 : Nat) : ℚ)⌉) ∧
    ((get_all_applications 3 4 [sampleApp]).pagination.has_next = true ↔
        3 < (get_all_applications 3 4 [sampleApp]).pagination.total_pages) ∧
    ((get_all_applications 3 4 [sampleApp]).pagination.has_prev = true ↔ 1 < 3) ∧
    ((get_all_applications 3 4 [sampleApp]).pagination.total_pages < 3 →
        (get_all_applications 3 4 [sampleApp]).applications = []) :=
  claim5 [sampleApp] 3 4 (by decide) (by decide)

/-- C6, per numeric cell: an empty or `-` grade-point cell is replaced by
0.0 and the row parses (provided the income cell does not itself fail,
i.e. it is empty, `-`, or parseable), and symmetrically an empty or `-`
income cell is replaced by 0; a non-empty, non-placeholder grade-point
cell that does not parse fails the row with the float error, and — the
grade-point step having gone through (empty, `-`, or parseable) — a
non-empty, non-placeholder unparseable income cell fails the row with the
int error; a failed row only has its error collected by the loop, the
batch state is otherwise untouched and processing continues with the next
row. -/
theorem claim6 (row : Row) (now : Nat) (ids : Nat → String) (rowNum : Nat)
    (rest : List Row) (st : ImportState) (e : String) :
    ((pyStrip (rowGet row "ipk" "") = "" ∨ pyStrip (rowGet row "ipk" "") = "-") →
     (pyStrip (rowGet row "penghasilan_keluarga" "") = "" ∨
      pyStrip (rowGet row "penghasilan_keluarga" "") = "-" ∨
      parsePyInt (pyStrip (rowGet row "penghasilan_keluarga" "")) ≠ none) →
     (parse_csv_row row).map ParsedRow.ipk = .ok 0) ∧
    ((pyStrip (rowGet row "penghasilan_keluarga" "") = "" ∨
      pyStrip (rowGet row "penghasilan_keluarga" "") = "-") →
     (pyStrip (rowGet row "ipk" "") = "" ∨ pyStrip (rowGet row "ipk" "") = "-" ∨
      parsePyFloat (pyStrip (rowGet row "ipk" "")) ≠ none) →
     (parse_csv_row row).map ParsedRow.penghasilan_keluarga = .ok 0) ∧
    (pyStrip (rowGet row "ipk" "") ≠ "" → pyStrip (rowGet row "ipk" "") ≠ "-" →
     parsePyFloat (pyStrip (rowGet row "ipk" "")) = none →
     parse_csv_row row = .error
       ("Invalid data in row: could not convert string to float: " ++
         pyStrip (rowGet row "ipk" ""))) ∧
    ((pyStrip (rowGet row "ipk" "") = "" ∨ pyStrip (rowGet row "ipk" "") = "-" ∨
      parsePyFloat (pyStrip (rowGet row "ipk" "")) ≠ none) →
     pyStrip (rowGet row "penghasilan_keluarga" "") ≠ "" →
     pyStrip (rowGet row "penghasilan_keluarga" "") ≠ "-" →
     parsePyInt (pyStrip (rowGet row "penghasilan_keluarga" "")) = none →
     parse_csv_row row = .error
       ("Invalid data in row: invalid literal for int: " ++
         pyStrip (rowGet row "penghasilan_keluarga" ""))) ∧
    (parse_csv_row row = .error e →
     importLoop now ids rowNum (row :: rest) st =
       importLoop now ids (rowNum + 1) rest
         { st with errors := st.errors ++ [errMsg rowNum e] }) := by
  refine ⟨?_, ?_, ?_, ?_, ?_⟩
  · intro hi hpk
    by_cases hc : pyStrip (rowGet row "penghasilan_keluarga" "") = "" ∨
        pyStrip (rowGet row "penghasilan_keluarga" "") = "-"
    · simp [parse_csv_row, hi, hc, Except.map]
    · have hne : parsePyInt (pyStrip (rowGet row "penghasilan_keluarga" "")) ≠ none := by
        tauto
      obtain ⟨n, hn⟩ := Option.ne_none_iff_exists'.mp hne
      simp [parse_csv_row, hi, hc, hn, Except.map]
  · intro hpk hi
    by_cases hc : pyStrip (rowGet row "ipk" "") = "" ∨ pyStrip (rowGet row "ipk" "") = "-"
    · simp [parse_csv_row, hc, hpk, Except.map]
    · have hne : parsePyFloat (pyStrip (rowGet row "ipk" "")) ≠ none := by tauto
      obtain ⟨q, hq⟩ := Option.ne_none_iff_exists'.mp hne
      simp [parse_csv_row, hc, hq, hpk, Except.map]
  · intro h1 h2 h3
    simp [parse_csv_row, h1, h2, h3]
  · intro hi h1 h2 h3
    by_cases hc : pyStrip (rowGet row "ipk" "") = "" ∨ pyStrip (rowGet row "ipk" "") = "-"
    · simp [parse_csv_row, hc, h1, h2, h3]
    · have hne : parsePyFloat (pyStrip (rowGet row "ipk" "")) ≠ none := by tauto
      obtain ⟨q, hq⟩ := Option.ne_none_iff_exists'.mp hne
      simp [parse_csv_row, hc, hq, h1, h2, h3]
  · intro hp
    simp [importLoop, importRow, hp]

theorem claim6_witness :
    (parse_csv_row rowDashIpk).map ParsedRow.ipk = .ok 0 ∧
    (parse_csv_row rowDash).map ParsedRow.penghasilan_keluarga = .ok 0 ∧
    parse_csv_row rowBadPk =
      .error ("Invalid data in row: invalid literal for int: " ++
        pyStrip (rowGet rowBadPk "penghasilan_keluarga" "")) ∧
    parse_csv_row rowBadIpk =
      .error ("Invalid data in row: could not convert string to float: " ++
        pyStrip (rowGet rowBadIpk "ipk" "")) ∧
    importLoop 7 ids1 2 [rowBadIpk] st0 =
      importLoop 7 ids1 3 []
        { st0 with errors := st0.errors ++
            [errMsg 2 ("Invalid data in row: could not convert string to float: " ++
              pyStrip (rowGet rowBadIpk "ipk" ""))] } :=
  ⟨(claim6 rowDashIpk 7 ids1 2 [] st0 "").1 (by decide) (by decide),
   (claim6 rowDash 7 ids1 2 [] st0 "").2.1 (by decide) (by decide),
   (claim6 rowBadPk 7 ids1 2 [] st0 "").2.2.2.1 (by decide) (by decide)
     (by decide) (by decide),
   (claim6 rowBadIpk 7 ids1 2 [] st0 "").2.2.1 (by decide) (by decide) (by decide),
   (claim6 rowBadIpk 7 ids1 2 [] st0
      ("Invalid data in row: could not convert string to float: " ++
        pyStrip (rowGet rowBadIpk "ipk" ""))).2.2.2.2
     ((claim6 rowBadIpk 7 ids1 2 [] st0 "").2.2.1 (by decide) (by decide) (by decide))⟩

/-- C7: a CSV row whose student-ID, email or full name is empty after
trimming only appends the diagnostic `Baris <n>: NIM, email, dan
nama_lengkap harus diisi` — the collection and both counters are untouched
— and the loop continues with the next row; in a full import the
diagnostic of the bad row at 0-based data position `i` names row `i + 2`,
its position in the file counted 1-indexed with the header as row 1. -/
theorem claim7 (now : Nat) (ids : Nat → String) (newId : String) (rowNum : Nat)
    (row : Row) (rest pre post : List Row) (st : ImportState) (db : DB)
    (p : ParsedRow) (hp : parse_csv_row row = .ok p)
    (hreq : p.nim = "" ∨ p.email = "" ∨ p.nama_lengkap = "") :
    importRow now newId rowNum row st =
      { st with errors :=
          st.errors ++ [errMsg rowNum "NIM, email, dan nama_lengkap harus diisi"] } ∧
    importLoop now ids rowNum (row :: rest) st =
      importLoop now ids (rowNum + 1) rest
        { st with errors :=
            st.errors ++ [errMsg rowNum "NIM, email, dan nama_lengkap harus diisi"] } ∧
    errMsg (pre.length + 2) "NIM, email, dan nama_lengkap harus diisi" ∈
      (import_applications_csv now ids (pre ++ row :: post) db).1.errors := by
  have key : ∀ (st' : ImportState) (n : Nat) (i : String),
      importRow now i n row st' =
        { st' with errors :=
            st'.errors ++ [errMsg n "NIM, email, dan nama_lengkap harus diisi"] } := by
    intro st' n i
    simp [importRow, hp, hreq]
  refine ⟨key st rowNum newId, by simp only [importLoop]; rw [key], ?_⟩
  unfold import_applications_csv
  simp only
  rw [importLoop_append]
  set st1 := importLoop now ids 2 pre { db := db, imported := 0, updated := 0, errors := [] }
  have hstep : importLoop now ids (2 + pre.length) (row :: post) st1 =
      importLoop now ids (2 + pre.length + 1) post
        { st1 with errors :=
            st1.errors ++ [errMsg (2 + pre.length)
              "NIM, email, dan nama_lengkap harus diisi"] } := by
    simp only [importLoop]
    rw [key]
  rw [hstep]
  obtain ⟨t, ht⟩ := importLoop_errors_extend now ids post (2 + pre.length + 1)
    { st1 with errors :=
        st1.errors ++ [errMsg (2 + pre.length) "NIM, email, dan nama_lengkap harus diisi"] }
  rw [ht]
  have : pre.length + 2 = 2 + pre.length := by omega
  rw [this]
  simp

theorem claim7_witness :
    importRow 7 "id9" 2 rowEmptyNim st0 =
      { st0 with errors :=
          st0.errors ++ [errMsg 2 "NIM, email, dan nama_lengkap harus diisi"] } ∧
    importLoop 7 ids1 2 (rowEmptyNim :: []) st0 =
      importLoop 7 ids1 3 []
        { st0 with errors :=
            st0.errors ++ [errMsg 2 "NIM, email, dan nama_lengkap harus diisi"] } ∧
    errMsg (([] : List Row).length + 2) "NIM, email, dan nama_lengkap harus diisi" ∈
      (import_applications_csv 7 ids1 ([] ++ rowEmptyNim :: []) [sampleApp]).1.errors :=
  claim7 7 ids1 "id9" 2 rowEmptyNim [] [] [] st0 [sampleApp] parsedEmptyNim
    rfl (by decide)

/-- Field projections of a successful `parse_csv_row`. -/
theorem parse_csv_row_ok_fields (row : Row) (p : ParsedRow)
    (hp : parse_csv_row row = .ok p) :
    p.nim = pyStrip (rowGet row "nim" "") ∧
    p.email = pyStrip (rowGet row "email" "") ∧
    p.nama_lengkap = pyStrip (rowGet row "nama_lengkap" "") ∧
    p.status = pyStrip (rowGet row "status" "Dalam Review") ∧
    p.tahap = pyStrip (rowGet row "tahap" "Administrasi") := by
  simp only [parse_csv_row] at hp
  split at hp
  · exact absurd hp (by simp)
  · split at hp
    · exact absurd hp (by simp)
    · injection hp with h
      subst h
      exact ⟨rfl, rfl, rfl, rfl, rfl⟩

/-- C1 (counterexample): CSV import does not preserve student-ID uniqueness.
Starting from a collection whose single record has nim `A1` and email
`a@x.com`, importing a row with nim `A1` under the different email
`b@x.com` finds no (nim, email) match and inserts a second record, leaving
two records with student-ID `A1`. -/
theorem claim1_cex :
    nimUnique [sampleApp] ∧
    ((import_applications_csv 7 ids1 [rowNewEmail] [sampleApp]).2.map App.nim =
      ["A1", "A1"]) ∧
    ¬ nimUnique (import_applications_csv 7 ids1 [rowNewEmail] [sampleApp]).2 := by
  decide

/-- C1 (amended): `create` fails with HTTP 400 (`DuplicateKey`) when a
record with the requested student-ID exists and otherwise preserves
student-ID uniqueness; `update` and `delete` preserve it as well.  The CSV
importer, however, checks only the (student-ID, email) pair, so it
preserves pair uniqueness — not student-ID uniqueness, which it can break by
inserting an existing student-ID under a new email. -/
theorem claim1_amended (input : AppCreate) (newId : String) (now : Nat) (db : DB)
    (app_id : String) (u : AppUpdate) (ids : Nat → String) (rows : List Row) :
    ((∃ x, db.find? (fun a => a.nim == input.nim) = some x) →
      create_application input newId now db =
        .error (.badRequest "NIM sudah terdaftar")) ∧
    (nimUnique db → ∀ r db', create_application input newId now db = .ok (r, db') →
      nimUnique db') ∧
    (nimUnique db → ∀ r db', update_application app_id u now db = .ok (r, db') →
      nimUnique db') ∧
    (nimUnique db → ∀ db', delete_application app_id db = .ok db' → nimUnique db') ∧
    (pairUnique db → pairUnique (import_applications_csv now ids rows db).2) := by
  refine ⟨?_, ?_, ?_, ?_, ?_⟩
  · rintro ⟨x, hx⟩
    simp [create_application, hx]
  · intro h r db' hok
    unfold create_application at hok
    cases hfind : db.find? (fun a => a.nim == input.nim) with
    | some x => rw [hfind] at hok; simp at hok
    | none =>
      rw [hfind] at hok
      simp only [Except.ok.injEq, Prod.mk.injEq] at hok
      obtain ⟨-, hdb⟩ := hok
      subst hdb
      unfold nimUnique at h ⊢
      rw [List.map_append, List.nodup_append]
      refine ⟨h, List.nodup_singleton _, ?_⟩
      intro x hx hx'
      simp only [List.map_cons, List.map_nil, List.mem_singleton] at hx'
      subst hx'
      obtain ⟨a, ha, hkey⟩ := List.mem_map.mp hx
      have hnot := List.find?_eq_none.mp hfind a ha
      simp only [beq_iff_eq] at hnot
      exact hnot hkey
  · intro h r db' hok
    unfold update_application at hok
    cases hfind : db.find? (fun a => a.id == app_id) with
    | none => rw [hfind] at hok; simp at hok
    | some x =>
      rw [hfind] at hok
      by_cases hA : u.hasAny = true
      · simp only [hA, if_true] at hok
        cases hfind2 : (updateOne (fun a => a.id == app_id) (u.apply now) db).find?
            (fun a => a.id == app_id) with
        | none => rw [hfind2] at hok; simp at hok
        | some y =>
          rw [hfind2] at hok
          simp only [Except.ok.injEq, Prod.mk.injEq] at hok
          obtain ⟨-, hdb⟩ := hok
          subst hdb
          unfold nimUnique at h ⊢
          rw [updateOne_map App.nim (fun a => a.id == app_id) (u.apply now)
            (fun a _ => rfl) db]
          exact h
      · simp only [if_neg hA] at hok
        rw [hfind] at hok
        simp only [Except.ok.injEq, Prod.mk.injEq] at hok
        obtain ⟨-, hdb⟩ := hok
        subst hdb
        exact h
  · intro h db' hok
    unfold delete_application at hok
    by_cases hany : db.any (fun a => a.id == app_id) = true
    · simp only [hany, if_true, Except.ok.injEq] at hok
      subst hok
      exact ((List.eraseP_sublist db).map App.nim).nodup h
    · simp [hany] at hok
  · intro h
    unfold import_applications_csv
    exact importLoop_pairUnique now ids rows 2 _ h

theorem claim1_witness :
    create_application sampleCreate "id2" 5 [sampleApp] =
      .error (.badRequest "NIM sudah terdaftar") ∧
    pairUnique (import_applications_csv 7 ids1 [rowNewEmail] [sampleApp]).2 :=
  ⟨(claim1_amended sampleCreate "id2" 5 [sampleApp] "x" {} ids1 []).1
      ⟨sampleApp, by decide⟩,
   (claim1_amended sampleCreate "id2" 7 [sampleApp] "x" {} ids1 [rowNewEmail]).2.2.2.2
      (by decide)⟩

/-- C2 (counterexample): the CSV import's update arm is not a partial merge.
The file behind `rowNoPhone` has no phone and no note column, yet importing
it over the matching record overwrites the stored phone with the empty
string and the stored note with `None`. -/
theorem claim2_cex :
    ([sampleApp].map App.nomor_telepon = ["0812"]) ∧
    ([sampleApp].map App.catatan = [some "oke"]) ∧
    (rowNoPhone.lookup "nomor_telepon" = none) ∧
    (rowNoPhone.lookup "catatan" = none) ∧
    ((import_applications_csv 7 ids1 [rowNoPhone] [sampleApp]).2.map
        App.nomor_telepon = [""]) ∧
    ((import_applications_csv 7 ids1 [rowNoPhone] [sampleApp]).2.map
        App.catatan = [none]) := by
  decide

/-- C2 (amended): for a CSV row matching an existing record by (nim, email),
the import `$set`s the full parsed dictionary: every application data field
is overwritten with the row-derived value (absent columns contributing
their parse defaults), only the generated id and `tanggal_daftar` survive,
and `tanggal_update` is always refreshed; the update counter advances and
nothing else in the batch state changes. -/
theorem claim2_amended (now : Nat) (newId : String) (rowNum : Nat) (row : Row)
    (st : ImportState) (p : ParsedRow) (a : App)
    (hp : parse_csv_row row = .ok p)
    (hreq : ¬(p.nim = "" ∨ p.email = "" ∨ p.nama_lengkap = ""))
    (hfind : st.db.find? (fun x => x.nim == p.nim && x.email == p.email) = some a) :
    importRow now newId rowNum row st =
      { st with
        db := updateOne (fun x => x.nim == p.nim && x.email == p.email)
                (App.setParsed p now) st.db
        updated := st.updated + 1 } ∧
    (updateOne (fun x => x.nim == p.nim && x.email == p.email)
        (App.setParsed p now) st.db).find?
        (fun x => x.nim == p.nim && x.email == p.email) =
      some (App.setParsed p now a) ∧
    (App.setParsed p now a).id = a.id ∧
    (App.setParsed p now a).tanggal_daftar = a.tanggal_daftar ∧
    (App.setParsed p now a).tanggal_update = now ∧
    (App.setParsed p now a).nim = p.nim ∧
    (App.setParsed p now a).email = p.email ∧
    (App.setParsed p now a).nama_lengkap = p.nama_lengkap ∧
    (App.setParsed p now a).nomor_telepon = p.nomor_telepon ∧
    (App.setParsed p now a).alamat = p.alamat ∧
    (App.setParsed p now a).ipk = p.ipk ∧
    (App.setParsed p now a).penghasilan_keluarga = p.penghasilan_keluarga ∧
    (App.setParsed p now a).essay = p.essay ∧
    (App.setParsed p now a).dokumen_pendukung = p.dokumen_pendukung ∧
    (App.setParsed p now a).rekomendasi = p.rekomendasi ∧
    (App.setParsed p now a).status = p.status ∧
    (App.setParsed p now a).tahap = p.tahap ∧
    (App.setParsed p now a).catatan = p.catatan := by
  refine ⟨by simp [importRow, hp, hreq, hfind],
    updateOne_find? _ _ st.db a hfind (by simp [App.setParsed]),
    rfl, rfl, rfl, rfl, rfl, rfl, rfl, rfl, rfl, rfl, rfl, rfl, rfl, rfl, rfl, rfl⟩

theorem claim2_witness :
    importRow 7 "id2" 2 rowNoPhone st0 =
      { st0 with
        db := updateOne
                (fun x => x.nim == parsedNoPhone.nim && x.email == parsedNoPhone.email)
                (App.setParsed parsedNoPhone 7) st0.db
        updated := st0.updated + 1 } ∧
    (App.setParsed parsedNoPhone 7 sampleApp).id = sampleApp.id ∧
    (App.setParsed parsedNoPhone 7 sampleApp).tanggal_update = 7 ∧
    (App.setParsed parsedNoPhone 7 sampleApp).nomor_telepon =
      parsedNoPhone.nomor_telepon :=
  ⟨(claim2_amended 7 "id2" 2 rowNoPhone st0 parsedNoPhone sampleApp rfl
      (by decide) (by decide)).1,
   (claim2_amended 7 "id2" 2 rowNoPhone st0 parsedNoPhone sampleApp rfl
      (by decide) (by decide)).2.2.1,
   (claim2_amended 7 "id2" 2 rowNoPhone st0 parsedNoPhone sampleApp rfl
      (by decide) (by decide)).2.2.2.2.1,
   (claim2_amended 7 "id2" 2 rowNoPhone st0 parsedNoPhone sampleApp rfl
      (by decide) (by decide)).2.2.2.2.2.2.2.2.1⟩

/-- What `parse_csv_row` produces for `rowBanana`. -/
def parsedBanana : ParsedRow :=
  { nim := "B2", email := "b@x.com", nama_lengkap := "Bob", nomor_telepon := "",
    alamat := "", ipk := 0, penghasilan_keluarga := 0, essay := "",
    dokumen_pendukung := none, rekomendasi := none,
    status := "Banana", tahap := "Mango", catatan := none }

/-- C4 (counterexample): the server's CSV import performs no vocabulary
mapping.  A row whose status cell is `Banana` and stage cell is `Mango`
does not fail and is stored verbatim, though neither value belongs to its
closed vocabulary. -/
theorem claim4_cex :
    ((import_applications_csv 7 ids1 [rowBanana] []).2.map App.status =
      ["Banana"]) ∧
    ((import_applications_csv 7 ids1 [rowBanana] []).2.map App.tahap =
      ["Mango"]) ∧
    (import_applications_csv 7 ids1 [rowBanana] []).1.errors = [] ∧
    "Banana" ∉ ["Dalam Review", "Diterima", "Ditolak"] ∧
    "Mango" ∉ ["Administrasi", "Wawancara", "Final"] := by
  decide

/-- C4 (amended): the closed-vocabulary mapping with fallback to the
defaults (`Dalam Review` / `Administrasi`) is performed by the standalone
`transform_csv` tool, where it is total into the vocabulary, identity on
vocabulary members and default on everything else; the server's own CSV
importer stores the stripped status and stage cells verbatim, applying the
defaults only when the column is absent from the file. -/
theorem claim4_amended (s t : String) (row : Row) (p : ParsedRow)
    (hp : parse_csv_row row = .ok p) :
    (transformStatus s ∈ ["Diterima", "Ditolak", "Dalam Review"]) ∧
    (s ∉ ["Diterima", "Ditolak", "Dalam Review"] →
      transformStatus s = "Dalam Review") ∧
    (s ∈ ["Diterima", "Ditolak", "Dalam Review"] → transformStatus s = s) ∧
    (transformTahap t ∈ ["Administrasi", "Wawancara", "Final"]) ∧
    (t ∉ ["Administrasi", "Wawancara", "Final"] →
      transformTahap t = "Administrasi") ∧
    (t ∈ ["Administrasi", "Wawancara", "Final"] → transformTahap t = t) ∧
    p.status = pyStrip (rowGet row "status" "Dalam Review") ∧
    p.tahap = pyStrip (rowGet row "tahap" "Administrasi") := by
  obtain ⟨-, -, -, hstat, htahap⟩ := parse_csv_row_ok_fields row p hp
  refine ⟨?_, ?_, ?_, ?_, ?_, ?_, hstat, htahap⟩
  · unfold transformStatus; split_ifs <;> simp
  · intro hs; unfold transformStatus; split_ifs <;> simp_all
  · intro hs; unfold transformStatus; split_ifs <;> simp_all
  · unfold transformTahap; split_ifs <;> simp
  · intro ht; unfold transformTahap; split_ifs <;> simp_all
  · intro ht; unfold transformTahap; split_ifs <;> simp_all

theorem claim4_witness :
    transformStatus "Banana" = "Dalam Review" ∧
    transformTahap "Mango" = "Administrasi" ∧
    parsedBanana.status = pyStrip (rowGet rowBanana "status" "Dalam Review") ∧
    parsedBanana.tahap = pyStrip (rowGet rowBanana "tahap" "Administrasi") :=
  ⟨(claim4_amended "Banana" "Mango" rowBanana parsedBanana rfl).2.1 (by decide),
   (claim4_amended "Banana" "Mango" rowBanana parsedBanana rfl).2.2.2.2.1 (by decide),
   (claim4_amended "Banana" "Mango" rowBanana parsedBanana rfl).2.2.2.2.2.2.1,
   (claim4_amended "Banana" "Mango" rowBanana parsedBanana rfl).2.2.2.2.2.2.2⟩

end Bius
